import Mathlib

/-!
Shallow embedding of `main.py`: the single FastAPI handler `search`, which
validates environment configuration, talks to a remote agent platform
(connection lookup, agent list/create, thread/message/run creation, one run
refresh, message listing) and returns a JSON-like payload.  Remote calls are
modelled by a stub configuration (`PlatformCfg`, with failure-injection knobs,
one per remote operation the handler performs) together with explicit platform
state (`PlatformState`) and a trace of the remote operations attempted
(`PlatformCall`).  Exceptions are strings; an exception escaping the handler
is the `Outcome.raised` case, a returned dict is `Outcome.returned`.
-/

/-- Environment variables read at the top of the handler via `os.environ.get`;
`none` models an unset variable. -/
structure Env where
  PROJECT_CONNECTION_STRING : Option String
  BING_RESOURCE_NAME : Option String
  AGENT_NAME : Option String
  AGENT_INSTRUCTIONS : Option String
  MODEL_DEPLOYMENT_NAME : Option String
deriving DecidableEq, Repr

/-- Python truthiness of an environment value: unset (`None`) and the empty
string are falsy, as in `if not project_conn_str`. -/
def envTruthy : Option String → Bool
  | none => false
  | some s => s != ""

/-- The `missing_vars` list built by the handler: `PROJECT_CONNECTION_STRING`
is appended first when falsy, then `BING_RESOURCE_NAME`. -/
def missingVars (env : Env) : List String :=
  (if envTruthy env.PROJECT_CONNECTION_STRING then [] else ["PROJECT_CONNECTION_STRING"]) ++
  (if envTruthy env.BING_RESOURCE_NAME then [] else ["BING_RESOURCE_NAME"])

/-- Message of the `EnvironmentError` raised when variables are missing. -/
def missingMessage (env : Env) : String :=
  "Missing environment variable(s): " ++ String.intercalate ", " (missingVars env)

/-- A tool definition as produced by `BingGroundingTool(connection_id=...).definitions`. -/
structure ToolDef where
  type : String
  connection_id : String
deriving DecidableEq, Repr

/-- The `definitions` list of a `BingGroundingTool` bound to a connection id. -/
def bingGroundingDefinitions (connId : String) : List ToolDef :=
  [{ type := "bing_grounding", connection_id := connId }]

/-- A connection returned by `project_client.connections.get`. -/
structure Connection where
  id : String
deriving DecidableEq, Repr

/-- An agent as listed or created on the platform.  `name` is optional: the
handler itself passes `name=agent_name` where `agent_name` may be `None`. -/
structure Agent where
  id : Nat
  name : Option String
  model : String
  instructions : Option String
  tools : List ToolDef
deriving DecidableEq, Repr

/-- A run; `last_error` is the stringified platform last-error when present. -/
structure Run where
  id : Nat
  status : String
  last_error : Option String
deriving DecidableEq, Repr

/-- The `text` sub-object of a message content item; `value` present or not. -/
structure TextBlock where
  value : Option String
deriving DecidableEq, Repr

/-- One content item of a thread message; it may or may not carry a `text` key. -/
structure ContentItem where
  text : Option TextBlock
deriving DecidableEq, Repr

/-- A message on a thread as returned by `messages.list`. -/
structure ThreadMessage where
  id : Nat
  role : String
  createdAt : Nat
  content : List ContentItem
deriving DecidableEq, Repr

/-- A JSON-ish value appearing in the handler's returned dict. -/
inductive JVal where
  | str (s : String)
  | nat (n : Nat)
  | null
deriving DecidableEq, Repr

/-- One remote platform operation attempted by the handler, with its arguments. -/
inductive PlatformCall where
  | credential
  | initClient (endpoint : String)
  | connectionsGet (name : String)
  | listAgents
  | createAgent (model : String) (name : Option String) (instructions : Option String)
      (tools : List ToolDef) (headers : List (String × String)) (temperature : Nat)
  | createThread
  | createMessage (threadId : Nat) (role : String) (content : String)
  | createRun (threadId : Nat) (agentId : Nat)
  | sleep (seconds : Nat)
  | getRun (threadId : Nat) (runId : Nat)
  | listMessages (threadId : Nat)
deriving DecidableEq, Repr

/-- Stub behaviour of the remote platform: each knob decides whether the
corresponding remote call raises (`some e` / `.error e`) or what it returns. -/
structure PlatformCfg where
  credentialFails : Option String
  clientInitFails : Option String
  connectionsGet : String → Except String Connection
  listAgentsFails : Option String
  createAgentFails : Option String
  threadsCreateFails : Option String
  messagesCreateFails : Option String
  runsCreate : Nat → Nat → Except String Run
  runsGet : Nat → Nat → Except String Run
  messagesList : Nat → Except String (List ThreadMessage)

/-- Server-side platform state: the agents visible to `list_agents`, a fresh-id
counter for server-assigned ids, and the ids of the threads created so far. -/
structure PlatformState where
  agents : List Agent
  nextId : Nat
  threads : List Nat
deriving DecidableEq, Repr

/-- Result of one handler invocation: either a returned dict or an exception
that escaped the handler. -/
inductive Outcome where
  | returned (payload : List (String × JVal))
  | raised (e : String)
deriving DecidableEq, Repr

/-- Outcome of `search` together with the final platform state and the trace
of remote operations attempted. -/
structure SearchResult where
  outcome : Outcome
  state : PlatformState
  trace : List PlatformCall
deriving DecidableEq, Repr

/-- Text accumulation over a message content list, from the loop
`for item in last_msg.content: if 'text' in item and 'value' in item['text']
and item['text']['value']: assistant_text += item['text']['value'] + "\n"`. -/
def collectText (content : List ContentItem) : String :=
  content.foldl
    (fun acc it =>
      match it.text with
      | some tb =>
        match tb.value with
        | some v => if v != "" then acc ++ v ++ "\n" else acc
        | none => acc
      | none => acc)
    ""

/-- The selected message:
`next((m for m in reversed(messages_list) if m.role == "assistant"), None)`. -/
def lastAssistant (msgs : List ThreadMessage) : Option ThreadMessage :=
  msgs.reverse.find? (fun m => m.role == "assistant")

/-- Python `str.strip()`: drop leading and trailing whitespace, modelled on
the string's character list. -/
def pyStrip (s : String) : String :=
  ⟨((s.data.dropWhile Char.isWhitespace).reverse.dropWhile Char.isWhitespace).reverse⟩

/-- The final `assistant_text`: text of the selected assistant message (guarded
by the truthiness of `last_msg` and `last_msg.content`), stripped. -/
def assistantText (msgs : List ThreadMessage) : String :=
  pyStrip (match lastAssistant msgs with
   | some m => if m.content = [] then "" else collectText m.content
   | none => "")

/-- The early-return payload of the `run.status == "failed"` branch. -/
def failedPayload (query : String) (run : Run) : List (String × JVal) :=
  [("query", .str query),
   ("status", .str run.status),
   ("error", .str (run.last_error.getD "Unknown error"))]

/-- The final success payload of the handler. -/
def successPayload (query : String) (agent : Agent) (threadId : Nat) (run : Run)
    (t : String) : List (String × JVal) :=
  [("query", .str query),
   ("agent_id", .nat agent.id),
   ("thread_id", .nat threadId),
   ("run_id", .nat run.id),
   ("run_status", .str run.status),
   ("assistant_response", if t = "" then JVal.null else .str t)]

/-- The run used after the wait: the single refresh `runs.get` wrapped in
`try/except`, falling back to the pre-wait run object when the refresh raises. -/
def effectiveRun (cfg : PlatformCfg) (threadId : Nat) (run : Run) : Run :=
  match cfg.runsGet threadId run.id with
  | .ok r => r
  | .error _ => run

/-- The tail of the orchestration once an agent is resolved: create a thread,
post the user message, create a run, sleep 7s, refresh the run once (failure
tolerated), early-return on `"failed"`, else list messages and extract.  The
trace component lists the remote operations this tail attempted, in order. -/
def afterAgent (query : String) (cfg : PlatformCfg) (agent : Agent) (st : PlatformState) :
    Except String (List (String × JVal)) × PlatformState × List PlatformCall :=
  match cfg.threadsCreateFails with
  | some e => (.error e, st, [.createThread])
  | none =>
  match cfg.messagesCreateFails with
  | some e =>
    (.error e,
     { agents := st.agents, nextId := st.nextId + 1, threads := st.threads ++ [st.nextId] },
     [.createThread, .createMessage st.nextId "user" query])
  | none =>
  match cfg.runsCreate st.nextId agent.id with
  | .error e =>
    (.error e,
     { agents := st.agents, nextId := st.nextId + 1, threads := st.threads ++ [st.nextId] },
     [.createThread, .createMessage st.nextId "user" query, .createRun st.nextId agent.id])
  | .ok run =>
  if (effectiveRun cfg st.nextId run).status == "failed" then
    (.ok (failedPayload query (effectiveRun cfg st.nextId run)),
     { agents := st.agents, nextId := st.nextId + 1, threads := st.threads ++ [st.nextId] },
     [.createThread, .createMessage st.nextId "user" query,
      .createRun st.nextId agent.id, .sleep 7, .getRun st.nextId run.id])
  else
    match cfg.messagesList st.nextId with
    | .error e =>
      (.error e,
       { agents := st.agents, nextId := st.nextId + 1, threads := st.threads ++ [st.nextId] },
       [.createThread, .createMessage st.nextId "user" query, .createRun st.nextId agent.id,
        .sleep 7, .getRun st.nextId run.id, .listMessages st.nextId])
    | .ok msgs =>
      (.ok (successPayload query agent st.nextId (effectiveRun cfg st.nextId run)
              (assistantText msgs)),
       { agents := st.agents, nextId := st.nextId + 1, threads := st.threads ++ [st.nextId] },
       [.createThread, .createMessage st.nextId "user" query, .createRun st.nextId agent.id,
        .sleep 7, .getRun st.nextId run.id, .listMessages st.nextId])

/-- The agent built by `create_agent` when no listed agent matches the
configured name: the configured model (with its default), name, instructions,
and the Bing grounding tool bound to the resolved connection. -/
def createdAgent (env : Env) (conn : Connection) (st : PlatformState) : Agent :=
  { id := st.nextId, name := env.AGENT_NAME,
    model := env.MODEL_DEPLOYMENT_NAME.getD "gpt-4.1",
    instructions := env.AGENT_INSTRUCTIONS,
    tools := bingGroundingDefinitions conn.id }

/-- Platform state after `create_agent` persisted the new agent server-side. -/
def stateWithCreated (env : Env) (conn : Connection) (st : PlatformState) : PlatformState :=
  { agents := st.agents ++ [createdAgent env conn st], nextId := st.nextId + 1,
    threads := st.threads }

/-- The body of the handler's `try` block: credential, client, Bing connection,
agent list, reuse-by-name or create, then `afterAgent`. -/
def searchBody (query : String) (env : Env) (cfg : PlatformCfg) (st : PlatformState) :
    Except String (List (String × JVal)) × PlatformState × List PlatformCall :=
  match cfg.credentialFails with
  | some e => (.error e, st, [.credential])
  | none =>
  match cfg.clientInitFails with
  | some e => (.error e, st,
      [.credential, .initClient (env.PROJECT_CONNECTION_STRING.getD "")])
  | none =>
  match cfg.connectionsGet (env.BING_RESOURCE_NAME.getD "") with
  | .error e => (.error e, st,
      [.credential, .initClient (env.PROJECT_CONNECTION_STRING.getD ""),
       .connectionsGet (env.BING_RESOURCE_NAME.getD "")])
  | .ok conn =>
  match cfg.listAgentsFails with
  | some e => (.error e, st,
      [.credential, .initClient (env.PROJECT_CONNECTION_STRING.getD ""),
       .connectionsGet (env.BING_RESOURCE_NAME.getD ""), .listAgents])
  | none =>
  match st.agents.find? (fun a => a.name == env.AGENT_NAME) with
  | some agent =>
    ((afterAgent query cfg agent st).1, (afterAgent query cfg agent st).2.1,
     [.credential, .initClient (env.PROJECT_CONNECTION_STRING.getD ""),
      .connectionsGet (env.BING_RESOURCE_NAME.getD ""), .listAgents] ++
     (afterAgent query cfg agent st).2.2)
  | none =>
    match cfg.createAgentFails with
    | some e => (.error e, st,
        [.credential, .initClient (env.PROJECT_CONNECTION_STRING.getD ""),
         .connectionsGet (env.BING_RESOURCE_NAME.getD ""), .listAgents,
         .createAgent (env.MODEL_DEPLOYMENT_NAME.getD "gpt-4.1") env.AGENT_NAME
           env.AGENT_INSTRUCTIONS (bingGroundingDefinitions conn.id)
           [("x-ms-enable-preview", "true")] 0])
    | none =>
      ((afterAgent query cfg (createdAgent env conn st) (stateWithCreated env conn st)).1,
       (afterAgent query cfg (createdAgent env conn st) (stateWithCreated env conn st)).2.1,
       [.credential, .initClient (env.PROJECT_CONNECTION_STRING.getD ""),
        .connectionsGet (env.BING_RESOURCE_NAME.getD ""), .listAgents,
        .createAgent (env.MODEL_DEPLOYMENT_NAME.getD "gpt-4.1") env.AGENT_NAME
          env.AGENT_INSTRUCTIONS (bingGroundingDefinitions conn.id)
          [("x-ms-enable-preview", "true")] 0] ++
       (afterAgent query cfg (createdAgent env conn st) (stateWithCreated env conn st)).2.2)

/-- The whole handler.  Note the environment validation happens before the
`try:` block, so its `EnvironmentError` is raised out of the handler; every
exception inside the body is caught and turned into the dict
`{"error": str(e)}`. -/
def search (query : String) (env : Env) (cfg : PlatformCfg) (st : PlatformState) :
    SearchResult :=
  if missingVars env = [] then
    match searchBody query env cfg st with
    | (.ok r, st2, tr) => ⟨.returned r, st2, tr⟩
    | (.error e, st2, tr) => ⟨.returned [("error", .str e)], st2, tr⟩
  else
    ⟨.raised (missingMessage env), st, []⟩

/-! ### Shared helper lemmas -/

theorem search_ok_shape {query : String} {env : Env} {cfg : PlatformCfg} {st : PlatformState}
    {r : List (String × JVal)} {st2 : PlatformState} {tr : List PlatformCall}
    (h : missingVars env = []) (hb : searchBody query env cfg st = (.ok r, st2, tr)) :
    search query env cfg st = ⟨.returned r, st2, tr⟩ := by
  unfold search
  rw [if_pos h, hb]

theorem search_error_shape {query : String} {env : Env} {cfg : PlatformCfg} {st : PlatformState}
    {e : String} {st2 : PlatformState} {tr : List PlatformCall}
    (h : missingVars env = []) (hb : searchBody query env cfg st = (.error e, st2, tr)) :
    search query env cfg st = ⟨.returned [("error", .str e)], st2, tr⟩ := by
  unfold search
  rw [if_pos h, hb]

theorem search_not_raised {query : String} {env : Env} {cfg : PlatformCfg} {st : PlatformState}
    (h : missingVars env = []) (m : String) :
    (search query env cfg st).outcome ≠ .raised m := by
  rcases hb : searchBody query env cfg st with ⟨res, st2, tr⟩
  cases res with
  | ok r => rw [search_ok_shape h hb]; intro hc; exact Outcome.noConfusion hc
  | error e => rw [search_error_shape h hb]; intro hc; exact Outcome.noConfusion hc

theorem search_raised_of_missing {query : String} {env : Env} {cfg : PlatformCfg}
    {st : PlatformState} (h : missingVars env ≠ []) :
    search query env cfg st = ⟨.raised (missingMessage env), st, []⟩ := by
  unfold search
  rw [if_neg h]


theorem afterAgent_trace_facts (query : String) (cfg : PlatformCfg) (agent : Agent)
    (st : PlatformState) :
    ((afterAgent query cfg agent st).2.2).Nodup ∧
    PlatformCall.credential ∉ (afterAgent query cfg agent st).2.2 ∧
    PlatformCall.listAgents ∉ (afterAgent query cfg agent st).2.2 ∧
    (∀ s, PlatformCall.initClient s ∉ (afterAgent query cfg agent st).2.2) ∧
    (∀ s, PlatformCall.connectionsGet s ∉ (afterAgent query cfg agent st).2.2) ∧
    (∀ m n i tl hd tp, PlatformCall.createAgent m n i tl hd tp ∉ (afterAgent query cfg agent st).2.2) ∧
    PlatformCall.createThread ∈ (afterAgent query cfg agent st).2.2 := by
  unfold afterAgent
  repeat' split
  all_goals simp

theorem searchBody_trace_facts (query : String) (env : Env) (cfg : PlatformCfg)
    (st : PlatformState) :
    ((searchBody query env cfg st).2.2).Nodup ∧
    PlatformCall.credential ∈ (searchBody query env cfg st).2.2 := by
  rcases h1 : cfg.credentialFails with _ | e1
  case some => simp [searchBody, h1]
  rcases h2 : cfg.clientInitFails with _ | e2
  case some => simp [searchBody, h1, h2]
  rcases h3 : cfg.connectionsGet (env.BING_RESOURCE_NAME.getD "") with e3 | conn
  case error => simp [searchBody, h1, h2, h3]
  rcases h4 : cfg.listAgentsFails with _ | e4
  case some => simp [searchBody, h1, h2, h3, h4]
  rcases h5 : List.find? (fun a => a.name == env.AGENT_NAME) st.agents with _ | agent
  case some =>
    obtain ⟨hnd, hc, hla, hic, hcg, hca, hct⟩ := afterAgent_trace_facts query cfg agent st
    simp only [searchBody, h1, h2, h3, h4, h5]
    refine ⟨?_, by simp⟩
    rw [List.nodup_append]
    refine ⟨by simp, hnd, ?_⟩
    intro a ha hb
    fin_cases ha
    · exact hc hb
    · exact hic _ hb
    · exact hcg _ hb
    · exact hla hb
  rcases h6 : cfg.createAgentFails with _ | e6
  case some => simp [searchBody, h1, h2, h3, h4, h5, h6]
  obtain ⟨hnd, hc, hla, hic, hcg, hca, hct⟩ :=
    afterAgent_trace_facts query cfg (createdAgent env conn st) (stateWithCreated env conn st)
  simp only [searchBody, h1, h2, h3, h4, h5, h6]
  refine ⟨?_, by simp⟩
  rw [List.nodup_append]
  refine ⟨by simp, hnd, ?_⟩
  intro a ha hb
  fin_cases ha
  · exact hc hb
  · exact hic _ hb
  · exact hcg _ hb
  · exact hla hb
  · exact hca _ _ _ _ _ _ hb

theorem lastAssistant_decomp {msgs : List ThreadMessage} {m : ThreadMessage}
    (h : lastAssistant msgs = some m) :
    m.role = "assistant" ∧
    ∃ l1 l2, msgs = l1 ++ m :: l2 ∧ ∀ x ∈ l2, x.role ≠ "assistant" := by
  unfold lastAssistant at h
  rw [List.find?_eq_some] at h
  obtain ⟨hp, as, bs, hrev, hall⟩ := h
  refine ⟨by simpa using hp, bs.reverse, as.reverse, ?_, ?_⟩
  · have h2 := congrArg List.reverse hrev
    simpa [List.reverse_append] using h2
  · intro x hx
    have h3 := hall x (by simpa using hx)
    simpa using h3

theorem lastAssistant_maximal {msgs : List ThreadMessage} {m : ThreadMessage}
    (hs : List.Pairwise (fun a b => a.createdAt ≤ b.createdAt) msgs)
    (h : lastAssistant msgs = some m) :
    ∀ x ∈ msgs, x.role = "assistant" → x.createdAt ≤ m.createdAt := by
  obtain ⟨hrole, l1, l2, heq, hlast⟩ := lastAssistant_decomp h
  subst heq
  intro x hx hxr
  rcases List.mem_append.1 hx with hx1 | hx2
  · exact (List.pairwise_append.1 hs).2.2 x hx1 m (List.mem_cons_self _ _)
  · rcases List.mem_cons.1 hx2 with rfl | hx2
    · exact le_refl _
    · exact absurd hxr (hlast x hx2)

theorem find?_first_match {l : List Agent} {p : Agent → Bool} {a : Agent}
    (h : l.find? p = some a) :
    p a = true ∧ ∃ l1 l2, l = l1 ++ a :: l2 ∧ ∀ b ∈ l1, p b = false := by
  rw [List.find?_eq_some] at h
  obtain ⟨hp, as, bs, heq, hall⟩ := h
  refine ⟨hp, as, bs, heq, ?_⟩
  intro b hb
  simpa using hall b hb

/-! ### Concrete fixtures used by witnesses and counterexamples -/

/-- A fully configured environment. -/
def envFull : Env :=
  { PROJECT_CONNECTION_STRING := some "https://proj.example",
    BING_RESOURCE_NAME := some "bing-search",
    AGENT_NAME := some "my-agent",
    AGENT_INSTRUCTIONS := some "be helpful",
    MODEL_DEPLOYMENT_NAME := none }

/-- Environment with both required values unset. -/
def envMissingBoth : Env :=
  { envFull with PROJECT_CONNECTION_STRING := none, BING_RESOURCE_NAME := none }

/-- Environment with the Bing resource name set to the empty string. -/
def envBlankBing : Env :=
  { envFull with BING_RESOURCE_NAME := some "" }

/-- Environment with the (unvalidated) agent settings unset. -/
def envNoAgentName : Env :=
  { envFull with AGENT_NAME := none, AGENT_INSTRUCTIONS := none }

/-- A user message carrying the query text. -/
def msgUser : ThreadMessage :=
  { id := 1, role := "user", createdAt := 1,
    content := [{ text := some { value := some "capital of France?" } }] }

/-- The stubbed assistant answer message. -/
def msgParis : ThreadMessage :=
  { id := 2, role := "assistant", createdAt := 2,
    content := [{ text := some { value := some "Paris is the capital of France." } }] }

/-- An older assistant message, and a newer one, for the ordering scenarios. -/
def msgOldAnswer : ThreadMessage :=
  { id := 3, role := "assistant", createdAt := 10,
    content := [{ text := some { value := some "old answer" } }] }

/-- The more recent of the two assistant messages. -/
def msgNewAnswer : ThreadMessage :=
  { id := 4, role := "assistant", createdAt := 20,
    content := [{ text := some { value := some "new answer" } }] }

/-- A healthy platform stub: every call succeeds, the run completes, and the
thread ends with the Paris assistant message (oldest-first listing). -/
def cfgOk : PlatformCfg :=
  { credentialFails := none, clientInitFails := none,
    connectionsGet := fun _ => .ok { id := "bing-conn-1" },
    listAgentsFails := none, createAgentFails := none,
    threadsCreateFails := none, messagesCreateFails := none,
    runsCreate := fun _ _ => .ok { id := 100, status := "in_progress", last_error := none },
    runsGet := fun _ r => .ok { id := r, status := "completed", last_error := none },
    messagesList := fun _ => .ok [msgUser, msgParis] }

/-- The pre-wait run object the healthy stub hands back at run creation. -/
def runInProgress : Run := { id := 100, status := "in_progress", last_error := none }

/-- The completed run the healthy stub reports after the refresh. -/
def runCompleted : Run := { id := 100, status := "completed", last_error := none }

/-- The failed, rate-limited run reported by `cfgFailedRun`. -/
def runFailed : Run := { id := 100, status := "failed", last_error := some "rate_limited" }

/-- Stub whose refreshed run status is `"failed"` with last-error
`rate_limited`. -/
def cfgFailedRun : PlatformCfg :=
  { cfgOk with
    runsGet := fun _ r => .ok { id := r, status := "failed", last_error := some "rate_limited" } }

/-- Stub whose credential acquisition raises. -/
def cfgAuthFail : PlatformCfg :=
  { cfgOk with credentialFails := some "auth down" }

/-- Stub whose run-status refresh raises, leaving the pre-wait run in force. -/
def cfgStaleRun : PlatformCfg :=
  { cfgOk with runsGet := fun _ _ => .error "refresh boom" }

/-- Stub whose message listing is newest-first (descending creation time),
with two assistant messages. -/
def cfgNewestFirst : PlatformCfg :=
  { cfgOk with messagesList := fun _ => .ok [msgNewAnswer, msgOldAnswer] }

/-- Stub whose thread contains no assistant message at all. -/
def cfgNoAssistant : PlatformCfg :=
  { cfgOk with messagesList := fun _ => .ok [msgUser] }

/-- An empty platform: no agents yet, fresh ids from 0. -/
def stEmpty : PlatformState := { agents := [], nextId := 0, threads := [] }

/-- A pre-existing agent whose name matches `envFull`'s configured name. -/
def agentA : Agent :=
  { id := 3, name := some "my-agent", model := "gpt-4.1",
    instructions := some "be helpful", tools := bingGroundingDefinitions "bing-conn-1" }

/-- Platform state holding the pre-existing named agent. -/
def stWithAgent : PlatformState := { agents := [agentA], nextId := 10, threads := [] }

/-- An agent whose name is null, as `create_agent` builds when `AGENT_NAME`
is unset. -/
def agentNull : Agent :=
  { id := 7, name := none, model := "gpt-4.1",
    instructions := none, tools := bingGroundingDefinitions "bing-conn-1" }

/-- Platform state holding only the null-named agent. -/
def stWithNull : PlatformState := { agents := [agentNull], nextId := 20, threads := [] }

theorem searchBody_reuse (query : String) {env : Env} {cfg : PlatformCfg} {st : PlatformState}
    {agent : Agent}
    (h1 : cfg.credentialFails = none) (h2 : cfg.clientInitFails = none)
    {conn : Connection}
    (h3 : cfg.connectionsGet (env.BING_RESOURCE_NAME.getD "") = .ok conn)
    (h4 : cfg.listAgentsFails = none)
    (hfind : st.agents.find? (fun a => a.name == env.AGENT_NAME) = some agent) :
    searchBody query env cfg st =
      ((afterAgent query cfg agent st).1, (afterAgent query cfg agent st).2.1,
       [.credential, .initClient (env.PROJECT_CONNECTION_STRING.getD ""),
        .connectionsGet (env.BING_RESOURCE_NAME.getD ""), .listAgents] ++
       (afterAgent query cfg agent st).2.2) := by
  simp only [searchBody, h1, h2, h3, h4, hfind]

theorem searchBody_create (query : String) {env : Env} {cfg : PlatformCfg} {st : PlatformState}
    (h1 : cfg.credentialFails = none) (h2 : cfg.clientInitFails = none)
    {conn : Connection}
    (h3 : cfg.connectionsGet (env.BING_RESOURCE_NAME.getD "") = .ok conn)
    (h4 : cfg.listAgentsFails = none)
    (hfind : st.agents.find? (fun a => a.name == env.AGENT_NAME) = none)
    (h6 : cfg.createAgentFails = none) :
    searchBody query env cfg st =
      ((afterAgent query cfg (createdAgent env conn st) (stateWithCreated env conn st)).1,
       (afterAgent query cfg (createdAgent env conn st) (stateWithCreated env conn st)).2.1,
       [.credential, .initClient (env.PROJECT_CONNECTION_STRING.getD ""),
        .connectionsGet (env.BING_RESOURCE_NAME.getD ""), .listAgents,
        .createAgent (env.MODEL_DEPLOYMENT_NAME.getD "gpt-4.1") env.AGENT_NAME
          env.AGENT_INSTRUCTIONS (bingGroundingDefinitions conn.id)
          [("x-ms-enable-preview", "true")] 0] ++
       (afterAgent query cfg (createdAgent env conn st) (stateWithCreated env conn st)).2.2) := by
  simp only [searchBody, h1, h2, h3, h4, hfind, h6]

theorem afterAgent_failed {query : String} {cfg : PlatformCfg} {agent : Agent}
    {st : PlatformState} {run run2 : Run}
    (h5 : cfg.threadsCreateFails = none) (h6 : cfg.messagesCreateFails = none)
    (hrc : cfg.runsCreate st.nextId agent.id = .ok run)
    (heff : effectiveRun cfg st.nextId run = run2)
    (hfail : run2.status = "failed") :
    afterAgent query cfg agent st =
      (.ok (failedPayload query run2),
       { agents := st.agents, nextId := st.nextId + 1, threads := st.threads ++ [st.nextId] },
       [.createThread, .createMessage st.nextId "user" query, .createRun st.nextId agent.id,
        .sleep 7, .getRun st.nextId run.id]) := by
  simp only [afterAgent, h5, h6, hrc, heff, hfail]
  simp

theorem afterAgent_success {query : String} {cfg : PlatformCfg} {agent : Agent}
    {st : PlatformState} {run run2 : Run} {msgs : List ThreadMessage}
    (h5 : cfg.threadsCreateFails = none) (h6 : cfg.messagesCreateFails = none)
    (hrc : cfg.runsCreate st.nextId agent.id = .ok run)
    (heff : effectiveRun cfg st.nextId run = run2)
    (hok : run2.status ≠ "failed")
    (hml : cfg.messagesList st.nextId = .ok msgs) :
    afterAgent query cfg agent st =
      (.ok (successPayload query agent st.nextId run2 (assistantText msgs)),
       { agents := st.agents, nextId := st.nextId + 1, threads := st.threads ++ [st.nextId] },
       [.createThread, .createMessage st.nextId "user" query, .createRun st.nextId agent.id,
        .sleep 7, .getRun st.nextId run.id, .listMessages st.nextId]) := by
  simp only [afterAgent, h5, h6, hrc, heff, hml]
  simp [hok]

theorem afterAgent_fresh_thread (query : String) (cfg : PlatformCfg) (agent : Agent)
    (st : PlatformState) (h5 : cfg.threadsCreateFails = none) :
    (afterAgent query cfg agent st).2.1 =
      { agents := st.agents, nextId := st.nextId + 1, threads := st.threads ++ [st.nextId] } ∧
    PlatformCall.createThread ∈ (afterAgent query cfg agent st).2.2 := by
  simp only [afterAgent, h5]
  repeat' split
  all_goals exact ⟨rfl, by simp⟩

/-! ### C1 -/

/-- C1 (counterexample): with both required variables unset, the handler does
not return the generic error payload at all — the `EnvironmentError` is raised
before the `try` block and escapes the handler (while no remote call is
attempted). -/
theorem c1_counterexample :
    (search "q" envMissingBoth cfgOk stEmpty).outcome =
      .raised "Missing environment variable(s): PROJECT_CONNECTION_STRING, BING_RESOURCE_NAME" ∧
    (∀ p, (search "q" envMissingBoth cfgOk stEmpty).outcome ≠ .returned p) ∧
    (search "q" envMissingBoth cfgOk stEmpty).trace = [] :=
  ⟨rfl, fun _ h => Outcome.noConfusion h, rfl⟩

/-- C1 (amended): whenever `PROJECT_CONNECTION_STRING` or `BING_RESOURCE_NAME`
is unset or empty, the handler raises the configuration error (it escapes the
handler rather than being converted into the generic error payload), the error
message names exactly the missing keys, and no remote platform call is
attempted (empty trace, unchanged platform state). -/
theorem c1_missing_config (query : String) (env : Env) (cfg : PlatformCfg) (st : PlatformState)
    (h : envTruthy env.PROJECT_CONNECTION_STRING = false ∨
         envTruthy env.BING_RESOURCE_NAME = false) :
    search query env cfg st = ⟨.raised (missingMessage env), st, []⟩ ∧
    ("PROJECT_CONNECTION_STRING" ∈ missingVars env ↔
       envTruthy env.PROJECT_CONNECTION_STRING = false) ∧
    ("BING_RESOURCE_NAME" ∈ missingVars env ↔ envTruthy env.BING_RESOURCE_NAME = false) ∧
    missingVars env ⊆ ["PROJECT_CONNECTION_STRING", "BING_RESOURCE_NAME"] := by
  have hne : missingVars env ≠ [] := by
    rcases h with h | h <;> simp [missingVars, h]
  refine ⟨search_raised_of_missing hne, ?_, ?_, ?_⟩ <;>
    (cases hP : envTruthy env.PROJECT_CONNECTION_STRING <;>
     cases hB : envTruthy env.BING_RESOURCE_NAME <;>
     simp [missingVars, hP, hB])

/-- C1 (witness): the amended statement applied to the concrete environment
with both required variables unset. -/
theorem c1_missing_config_witness :
    search "q2" envMissingBoth cfgOk stEmpty =
      ⟨.raised (missingMessage envMissingBoth), stEmpty, []⟩ ∧
    ("PROJECT_CONNECTION_STRING" ∈ missingVars envMissingBoth ↔
       envTruthy envMissingBoth.PROJECT_CONNECTION_STRING = false) ∧
    ("BING_RESOURCE_NAME" ∈ missingVars envMissingBoth ↔
       envTruthy envMissingBoth.BING_RESOURCE_NAME = false) ∧
    missingVars envMissingBoth ⊆ ["PROJECT_CONNECTION_STRING", "BING_RESOURCE_NAME"] :=
  c1_missing_config "q2" envMissingBoth cfgOk stEmpty (Or.inl (by decide))

/-! ### C2 -/

/-- C2 (counterexample): an exception from the step-1 configuration validation
is NOT caught at the outer boundary: with `BING_RESOURCE_NAME` set to the empty
string, the handler raises instead of returning any payload. -/
theorem c2_counterexample :
    (search "what is Lean" envBlankBing cfgOk stEmpty).outcome =
      .raised "Missing environment variable(s): BING_RESOURCE_NAME" ∧
    (∀ p, (search "what is Lean" envBlankBing cfgOk stEmpty).outcome ≠ .returned p) :=
  ⟨rfl, fun _ h => Outcome.noConfusion h⟩

/-- C2 (amended): once the required configuration is present, every exception
raised inside the `try` body (authentication, network, platform failures) is
caught at the outer boundary and converted into the generic payload containing
only the stringified exception; no exception propagates out of the handler and
no remote operation appears twice in the trace (nothing is retried).  The
step-1 validation error, by contrast, is raised before the `try` block and
escapes the handler. -/
theorem c2_catch_boundary (query : String) (env : Env) (cfg : PlatformCfg) (st : PlatformState)
    (h : missingVars env = []) :
    (∀ e st2 tr, searchBody query env cfg st = (.error e, st2, tr) →
        search query env cfg st = ⟨.returned [("error", .str e)], st2, tr⟩) ∧
    (∀ m, (search query env cfg st).outcome ≠ .raised m) ∧
    (search query env cfg st).trace.Nodup := by
  refine ⟨fun e st2 tr hb => search_error_shape h hb, fun m => search_not_raised h m, ?_⟩
  rcases hb : searchBody query env cfg st with ⟨res, st2, tr⟩
  have hnd := (searchBody_trace_facts query env cfg st).1
  rw [hb] at hnd
  cases res with
  | ok r => rw [search_ok_shape h hb]; exact hnd
  | error e => rw [search_error_shape h hb]; exact hnd

/-- C2 (witness): the amended statement at a concrete stub whose credential
acquisition raises `auth down`; the handler returns the generic payload. -/
theorem c2_catch_boundary_witness :
    ((∀ e st2 tr, searchBody "boom" envFull cfgAuthFail stEmpty = (.error e, st2, tr) →
        search "boom" envFull cfgAuthFail stEmpty = ⟨.returned [("error", .str e)], st2, tr⟩) ∧
     (∀ m, (search "boom" envFull cfgAuthFail stEmpty).outcome ≠ .raised m) ∧
     (search "boom" envFull cfgAuthFail stEmpty).trace.Nodup) ∧
    search "boom" envFull cfgAuthFail stEmpty =
      ⟨.returned [("error", .str "auth down")], stEmpty, [.credential]⟩ :=
  ⟨c2_catch_boundary "boom" envFull cfgAuthFail stEmpty (by decide),
   (c2_catch_boundary "boom" envFull cfgAuthFail stEmpty (by decide)).1 "auth down" stEmpty
     [.credential] rfl⟩

theorem search_reuse_parts (query : String) {env : Env} {cfg : PlatformCfg} {st : PlatformState}
    {agent : Agent} {conn : Connection}
    (h0 : missingVars env = [])
    (h1 : cfg.credentialFails = none) (h2 : cfg.clientInitFails = none)
    (h3 : cfg.connectionsGet (env.BING_RESOURCE_NAME.getD "") = .ok conn)
    (h4 : cfg.listAgentsFails = none)
    (hfind : st.agents.find? (fun a => a.name == env.AGENT_NAME) = some agent) :
    (search query env cfg st).trace =
      [.credential, .initClient (env.PROJECT_CONNECTION_STRING.getD ""),
       .connectionsGet (env.BING_RESOURCE_NAME.getD ""), .listAgents] ++
      (afterAgent query cfg agent st).2.2 ∧
    (search query env cfg st).state = (afterAgent query cfg agent st).2.1 := by
  have hbody := searchBody_reuse query h1 h2 h3 h4 hfind
  rcases hres : afterAgent query cfg agent st with ⟨res, stA, trA⟩
  rw [hres] at hbody
  cases res with
  | ok r => rw [search_ok_shape h0 hbody]; constructor <;> simp
  | error e => rw [search_error_shape h0 hbody]; constructor <;> simp

theorem search_create_parts (query : String) {env : Env} {cfg : PlatformCfg} {st : PlatformState}
    {conn : Connection}
    (h0 : missingVars env = [])
    (h1 : cfg.credentialFails = none) (h2 : cfg.clientInitFails = none)
    (h3 : cfg.connectionsGet (env.BING_RESOURCE_NAME.getD "") = .ok conn)
    (h4 : cfg.listAgentsFails = none)
    (hfind : st.agents.find? (fun a => a.name == env.AGENT_NAME) = none)
    (h6 : cfg.createAgentFails = none) :
    (search query env cfg st).trace =
      [.credential, .initClient (env.PROJECT_CONNECTION_STRING.getD ""),
       .connectionsGet (env.BING_RESOURCE_NAME.getD ""), .listAgents,
       .createAgent (env.MODEL_DEPLOYMENT_NAME.getD "gpt-4.1") env.AGENT_NAME
         env.AGENT_INSTRUCTIONS (bingGroundingDefinitions conn.id)
         [("x-ms-enable-preview", "true")] 0] ++
      (afterAgent query cfg (createdAgent env conn st) (stateWithCreated env conn st)).2.2 ∧
    (search query env cfg st).state =
      (afterAgent query cfg (createdAgent env conn st) (stateWithCreated env conn st)).2.1 := by
  have hbody := searchBody_create query h1 h2 h3 h4 hfind h6
  rcases hres : afterAgent query cfg (createdAgent env conn st) (stateWithCreated env conn st)
    with ⟨res, stA, trA⟩
  rw [hres] at hbody
  cases res with
  | ok r => rw [search_ok_shape h0 hbody]; constructor <;> simp
  | error e => rw [search_error_shape h0 hbody]; constructor <;> simp

/-! ### C4 -/

/-- C4: when the (possibly stale) run status is `"failed"`, the handler
returns early an object with exactly the query, the status and the last-error
detail (falling back to `Unknown error` when absent); the payload has no
`assistant_response` field and no message listing is attempted.  This holds on
both the agent-reuse and the agent-creation path. -/
theorem c4_failed_early_return (query : String) (env : Env) (cfg : PlatformCfg)
    (st : PlatformState) (conn : Connection) (run run2 : Run)
    (h0 : missingVars env = [])
    (h1 : cfg.credentialFails = none) (h2 : cfg.clientInitFails = none)
    (h3 : cfg.connectionsGet (env.BING_RESOURCE_NAME.getD "") = .ok conn)
    (h4 : cfg.listAgentsFails = none)
    (h5 : cfg.threadsCreateFails = none) (h6 : cfg.messagesCreateFails = none)
    (hagent : (∃ agent, st.agents.find? (fun a => a.name == env.AGENT_NAME) = some agent) ∨
       (st.agents.find? (fun a => a.name == env.AGENT_NAME) = none ∧
        cfg.createAgentFails = none))
    (hrc : ∀ t aid, cfg.runsCreate t aid = .ok run)
    (heff : ∀ t, effectiveRun cfg t run = run2)
    (hfail : run2.status = "failed") :
    ∃ st2 tr,
      search query env cfg st = ⟨.returned (failedPayload query run2), st2, tr⟩ ∧
      (∀ t, PlatformCall.listMessages t ∉ tr) ∧
      (∀ v, ("assistant_response", v) ∉ failedPayload query run2) ∧
      failedPayload query run2 =
        [("query", .str query), ("status", .str run2.status),
         ("error", .str (run2.last_error.getD "Unknown error"))] := by
  rcases hagent with ⟨agent, hfind⟩ | ⟨hfind, h7⟩
  · have hbody := searchBody_reuse query h1 h2 h3 h4 hfind
    rw [afterAgent_failed h5 h6 (hrc _ _) (heff _) hfail] at hbody
    refine ⟨_, _, search_ok_shape h0 hbody, ?_, ?_, rfl⟩
    · intro t; simp
    · intro v; simp [failedPayload]
  · have hbody := searchBody_create query h1 h2 h3 h4 hfind h7
    rw [afterAgent_failed h5 h6 (hrc _ _) (heff _) hfail] at hbody
    refine ⟨_, _, search_ok_shape h0 hbody, ?_, ?_, rfl⟩
    · intro t; simp
    · intro v; simp [failedPayload]

/-- C4 (witness): with the rate-limited stub and the pre-existing agent, the
handler returns `{query, status: "failed", error: "rate_limited"}` and no
`assistant_response`. -/
theorem c4_failed_early_return_witness :
    ∃ st2 tr,
      search "capital of France?" envFull cfgFailedRun stWithAgent =
        ⟨.returned (failedPayload "capital of France?" runFailed), st2, tr⟩ ∧
      (∀ t, PlatformCall.listMessages t ∉ tr) ∧
      (∀ v, ("assistant_response", v) ∉ failedPayload "capital of France?" runFailed) ∧
      failedPayload "capital of France?" runFailed =
        [("query", .str "capital of France?"), ("status", .str runFailed.status),
         ("error", .str (runFailed.last_error.getD "Unknown error"))] :=
  c4_failed_early_return "capital of France?" envFull cfgFailedRun stWithAgent
    { id := "bing-conn-1" } runInProgress runFailed
    (by decide) rfl rfl rfl rfl rfl rfl
    (Or.inl ⟨agentA, by decide⟩)
    (fun _ _ => rfl) (fun _ => rfl) rfl

/-! ### C5 -/

/-- C5: when the agent listing contains an agent whose name equals the
configured agent name, the agent-creation call is never attempted (on any
downstream outcome), the selected agent is the first match in listing order,
and on the success path its id is returned as `agent_id`. -/
theorem c5_agent_reuse (query : String) (env : Env) (cfg : PlatformCfg)
    (st : PlatformState) (conn : Connection) (agent : Agent)
    (h0 : missingVars env = [])
    (h1 : cfg.credentialFails = none) (h2 : cfg.clientInitFails = none)
    (h3 : cfg.connectionsGet (env.BING_RESOURCE_NAME.getD "") = .ok conn)
    (h4 : cfg.listAgentsFails = none)
    (hfind : st.agents.find? (fun a => a.name == env.AGENT_NAME) = some agent) :
    (∀ m n i tl hd tp,
       PlatformCall.createAgent m n i tl hd tp ∉ (search query env cfg st).trace) ∧
    ((agent.name == env.AGENT_NAME) = true ∧
     ∃ l1 l2, st.agents = l1 ++ agent :: l2 ∧
       ∀ b ∈ l1, (b.name == env.AGENT_NAME) = false) ∧
    (∀ run run2 msgs,
       cfg.threadsCreateFails = none → cfg.messagesCreateFails = none →
       cfg.runsCreate st.nextId agent.id = .ok run →
       effectiveRun cfg st.nextId run = run2 → run2.status ≠ "failed" →
       cfg.messagesList st.nextId = .ok msgs →
       ∃ st2 tr, search query env cfg st =
           ⟨.returned (successPayload query agent st.nextId run2 (assistantText msgs)),
            st2, tr⟩ ∧
         ("agent_id", .nat agent.id) ∈
           successPayload query agent st.nextId run2 (assistantText msgs)) := by
  refine ⟨?_, find?_first_match hfind, ?_⟩
  · intro m n i tl hd tp
    have htr := (search_reuse_parts query h0 h1 h2 h3 h4 hfind).1
    have hext := (afterAgent_trace_facts query cfg agent st).2.2.2.2.2.1 m n i tl hd tp
    rw [htr]
    simp [hext]
  · intro run run2 msgs hta hmc hrc heff hok hml
    have hbody := searchBody_reuse query h1 h2 h3 h4 hfind
    rw [afterAgent_success hta hmc hrc heff hok hml] at hbody
    refine ⟨_, _, search_ok_shape h0 hbody, ?_⟩
    simp [successPayload]

/-- C5 (witness): with the pre-existing matching agent and the healthy stub,
nothing is created and `agent_id` is the existing agent's id. -/
theorem c5_agent_reuse_witness :
    ((∀ m n i tl hd tp,
        PlatformCall.createAgent m n i tl hd tp ∉
          (search "capital of France?" envFull cfgOk stWithAgent).trace) ∧
     ((agentA.name == envFull.AGENT_NAME) = true ∧
      ∃ l1 l2, stWithAgent.agents = l1 ++ agentA :: l2 ∧
        ∀ b ∈ l1, (b.name == envFull.AGENT_NAME) = false) ∧
     (∀ run run2 msgs,
        cfgOk.threadsCreateFails = none → cfgOk.messagesCreateFails = none →
        cfgOk.runsCreate stWithAgent.nextId agentA.id = .ok run →
        effectiveRun cfgOk stWithAgent.nextId run = run2 → run2.status ≠ "failed" →
        cfgOk.messagesList stWithAgent.nextId = .ok msgs →
        ∃ st2 tr, search "capital of France?" envFull cfgOk stWithAgent =
            ⟨.returned (successPayload "capital of France?" agentA stWithAgent.nextId run2
                (assistantText msgs)), st2, tr⟩ ∧
          ("agent_id", .nat agentA.id) ∈
            successPayload "capital of France?" agentA stWithAgent.nextId run2
              (assistantText msgs))) ∧
    ∃ st2 tr, search "capital of France?" envFull cfgOk stWithAgent =
        ⟨.returned (successPayload "capital of France?" agentA 10 runCompleted
            (assistantText [msgUser, msgParis])), st2, tr⟩ ∧
      ("agent_id", .nat 3) ∈
        successPayload "capital of France?" agentA 10 runCompleted
          (assistantText [msgUser, msgParis]) := by
  refine ⟨c5_agent_reuse "capital of France?" envFull cfgOk stWithAgent
    { id := "bing-conn-1" } agentA (by decide) rfl rfl rfl rfl (by decide), ?_⟩
  exact (c5_agent_reuse "capital of France?" envFull cfgOk stWithAgent
    { id := "bing-conn-1" } agentA (by decide) rfl rfl rfl rfl (by decide)).2.2
    runInProgress runCompleted [msgUser, msgParis] rfl rfl rfl rfl (by decide) rfl

theorem searchBody_create_fail (query : String) {env : Env} {cfg : PlatformCfg}
    {st : PlatformState} {conn : Connection} {e : String}
    (h1 : cfg.credentialFails = none) (h2 : cfg.clientInitFails = none)
    (h3 : cfg.connectionsGet (env.BING_RESOURCE_NAME.getD "") = .ok conn)
    (h4 : cfg.listAgentsFails = none)
    (hfind : st.agents.find? (fun a => a.name == env.AGENT_NAME) = none)
    (h6 : cfg.createAgentFails = some e) :
    searchBody query env cfg st =
      (.error e, st,
       [.credential, .initClient (env.PROJECT_CONNECTION_STRING.getD ""),
        .connectionsGet (env.BING_RESOURCE_NAME.getD ""), .listAgents,
        .createAgent (env.MODEL_DEPLOYMENT_NAME.getD "gpt-4.1") env.AGENT_NAME
          env.AGENT_INSTRUCTIONS (bingGroundingDefinitions conn.id)
          [("x-ms-enable-preview", "true")] 0]) := by
  simp only [searchBody, h1, h2, h3, h4, hfind, h6]

theorem afterAgent_agents (query : String) (cfg : PlatformCfg) (agent : Agent)
    (st : PlatformState) :
    (afterAgent query cfg agent st).2.1.agents = st.agents := by
  unfold afterAgent
  repeat' split
  all_goals rfl

/-! ### C6 -/

/-- C6: when no listed agent matches the configured name, the handler attempts
the agent-creation call with exactly the configured model (defaulting to
`gpt-4.1` when `MODEL_DEPLOYMENT_NAME` is unset), the configured name and
instructions, the Bing grounding tool bound to the resolved connection, the
preview-feature header, and temperature 0; when the call succeeds, an agent
with exactly those attributes is persisted in the platform state. -/
theorem c6_agent_creation (query : String) (env : Env) (cfg : PlatformCfg)
    (st : PlatformState) (conn : Connection)
    (h0 : missingVars env = [])
    (h1 : cfg.credentialFails = none) (h2 : cfg.clientInitFails = none)
    (h3 : cfg.connectionsGet (env.BING_RESOURCE_NAME.getD "") = .ok conn)
    (h4 : cfg.listAgentsFails = none)
    (hfind : st.agents.find? (fun a => a.name == env.AGENT_NAME) = none) :
    PlatformCall.createAgent (env.MODEL_DEPLOYMENT_NAME.getD "gpt-4.1") env.AGENT_NAME
        env.AGENT_INSTRUCTIONS (bingGroundingDefinitions conn.id)
        [("x-ms-enable-preview", "true")] 0 ∈ (search query env cfg st).trace ∧
    (cfg.createAgentFails = none →
      createdAgent env conn st ∈ (search query env cfg st).state.agents ∧
      (createdAgent env conn st).model = env.MODEL_DEPLOYMENT_NAME.getD "gpt-4.1" ∧
      (createdAgent env conn st).name = env.AGENT_NAME ∧
      (createdAgent env conn st).instructions = env.AGENT_INSTRUCTIONS ∧
      (createdAgent env conn st).tools = bingGroundingDefinitions conn.id) ∧
    (env.MODEL_DEPLOYMENT_NAME = none → env.MODEL_DEPLOYMENT_NAME.getD "gpt-4.1" = "gpt-4.1") := by
  refine ⟨?_, ?_, fun h => by rw [h]; rfl⟩
  · rcases h6 : cfg.createAgentFails with _ | e
    · rw [(search_create_parts query h0 h1 h2 h3 h4 hfind h6).1]
      simp
    · rw [search_error_shape h0 (searchBody_create_fail query h1 h2 h3 h4 hfind h6)]
      simp
  · intro h6
    rw [(search_create_parts query h0 h1 h2 h3 h4 hfind h6).2,
        afterAgent_agents]
    refine ⟨?_, rfl, rfl, rfl, rfl⟩
    simp [stateWithCreated]

/-- C6 (witness): on an empty platform the healthy stub receives a creation
call with the default model `gpt-4.1`, the configured name and instructions,
the Bing tool, the preview header and temperature 0. -/
theorem c6_agent_creation_witness :
    PlatformCall.createAgent (envFull.MODEL_DEPLOYMENT_NAME.getD "gpt-4.1") envFull.AGENT_NAME
        envFull.AGENT_INSTRUCTIONS (bingGroundingDefinitions "bing-conn-1")
        [("x-ms-enable-preview", "true")] 0 ∈
      (search "capital of France?" envFull cfgOk stEmpty).trace ∧
    (cfgOk.createAgentFails = none →
      createdAgent envFull { id := "bing-conn-1" } stEmpty ∈
        (search "capital of France?" envFull cfgOk stEmpty).state.agents ∧
      (createdAgent envFull { id := "bing-conn-1" } stEmpty).model =
        envFull.MODEL_DEPLOYMENT_NAME.getD "gpt-4.1" ∧
      (createdAgent envFull { id := "bing-conn-1" } stEmpty).name = envFull.AGENT_NAME ∧
      (createdAgent envFull { id := "bing-conn-1" } stEmpty).instructions =
        envFull.AGENT_INSTRUCTIONS ∧
      (createdAgent envFull { id := "bing-conn-1" } stEmpty).tools =
        bingGroundingDefinitions "bing-conn-1") ∧
    (envFull.MODEL_DEPLOYMENT_NAME = none →
      envFull.MODEL_DEPLOYMENT_NAME.getD "gpt-4.1" = "gpt-4.1") :=
  c6_agent_creation "capital of France?" envFull cfgOk stEmpty { id := "bing-conn-1" }
    (by decide) rfl rfl rfl rfl (by decide)

theorem search_success_exists {query : String} {env : Env} {cfg : PlatformCfg}
    {st : PlatformState} {conn : Connection} {run run2 : Run} {msgs : List ThreadMessage}
    (h0 : missingVars env = [])
    (h1 : cfg.credentialFails = none) (h2 : cfg.clientInitFails = none)
    (h3 : cfg.connectionsGet (env.BING_RESOURCE_NAME.getD "") = .ok conn)
    (h4 : cfg.listAgentsFails = none)
    (hagent : (∃ agent, st.agents.find? (fun a => a.name == env.AGENT_NAME) = some agent) ∨
       (st.agents.find? (fun a => a.name == env.AGENT_NAME) = none ∧
        cfg.createAgentFails = none))
    (h5 : cfg.threadsCreateFails = none) (h6 : cfg.messagesCreateFails = none)
    (hrc : ∀ t aid, cfg.runsCreate t aid = .ok run)
    (heff : ∀ t, effectiveRun cfg t run = run2)
    (hok : run2.status ≠ "failed")
    (hml : ∀ t, cfg.messagesList t = .ok msgs) :
    ∃ agent tid st2 tr, search query env cfg st =
      ⟨.returned (successPayload query agent tid run2 (assistantText msgs)), st2, tr⟩ := by
  rcases hagent with ⟨agent, hfind⟩ | ⟨hfind, h7⟩
  · have hbody := searchBody_reuse query h1 h2 h3 h4 hfind
    rw [afterAgent_success h5 h6 (hrc _ _) (heff _) hok (hml _)] at hbody
    exact ⟨agent, st.nextId, _, _, search_ok_shape h0 hbody⟩
  · have hbody := searchBody_create query h1 h2 h3 h4 hfind h7
    rw [afterAgent_success h5 h6 (hrc _ _) (heff _) hok (hml _)] at hbody
    exact ⟨createdAgent env conn st, (stateWithCreated env conn st).nextId, _, _,
      search_ok_shape h0 hbody⟩

/-! ### C3 -/

/-- C3 (counterexample): the selection is NOT order-independent and does not
pick the most recent assistant message: with a newest-first listing the handler
answers with the oldest assistant text.  Here `msgNewAnswer` is a listed
assistant message strictly more recent than the selected `msgOldAnswer`, and
the returned `assistant_response` is `old answer`. -/
theorem c3_counterexample :
    (search "q" envFull cfgNewestFirst stWithAgent).outcome =
      .returned (successPayload "q" agentA 10 runCompleted "old answer") ∧
    ("assistant_response", JVal.str "old answer") ∈
      successPayload "q" agentA 10 runCompleted "old answer" ∧
    lastAssistant [msgNewAnswer, msgOldAnswer] = some msgOldAnswer ∧
    msgNewAnswer ∈ [msgNewAnswer, msgOldAnswer] ∧
    msgNewAnswer.role = "assistant" ∧
    msgOldAnswer.createdAt < msgNewAnswer.createdAt ∧
    assistantText [msgNewAnswer, msgOldAnswer] = "old answer" ∧
    collectText msgNewAnswer.content = "new answer\n" := by
  refine ⟨rfl, by decide, by decide, by decide, rfl, by decide, rfl, rfl⟩

/-- C3 (amended): when the run status is not `"failed"`, the handler selects
the last assistant-authored message in the order the listing returned the
messages (for a listing sorted oldest-first by creation time this is the most
recent assistant message), concatenates every text-bearing content block's
value with trailing newlines and strips the result, returning it as
`assistant_response`; the selection depends on the listing order. -/
theorem c3_extraction (query : String) (env : Env) (cfg : PlatformCfg)
    (st : PlatformState) (conn : Connection) (run run2 : Run) (msgs : List ThreadMessage)
    (h0 : missingVars env = [])
    (h1 : cfg.credentialFails = none) (h2 : cfg.clientInitFails = none)
    (h3 : cfg.connectionsGet (env.BING_RESOURCE_NAME.getD "") = .ok conn)
    (h4 : cfg.listAgentsFails = none)
    (hagent : (∃ agent, st.agents.find? (fun a => a.name == env.AGENT_NAME) = some agent) ∨
       (st.agents.find? (fun a => a.name == env.AGENT_NAME) = none ∧
        cfg.createAgentFails = none))
    (h5 : cfg.threadsCreateFails = none) (h6 : cfg.messagesCreateFails = none)
    (hrc : ∀ t aid, cfg.runsCreate t aid = .ok run)
    (heff : ∀ t, effectiveRun cfg t run = run2)
    (hok : run2.status ≠ "failed")
    (hml : ∀ t, cfg.messagesList t = .ok msgs) :
    (∃ agent tid st2 tr, search query env cfg st =
        ⟨.returned (successPayload query agent tid run2 (assistantText msgs)), st2, tr⟩) ∧
    (∀ m, lastAssistant msgs = some m →
        m ∈ msgs ∧ m.role = "assistant" ∧
        ∃ l1 l2, msgs = l1 ++ m :: l2 ∧ ∀ x ∈ l2, x.role ≠ "assistant") ∧
    (List.Pairwise (fun a b => a.createdAt ≤ b.createdAt) msgs →
        ∀ m, lastAssistant msgs = some m →
          ∀ x ∈ msgs, x.role = "assistant" → x.createdAt ≤ m.createdAt) ∧
    (∀ m, lastAssistant msgs = some m → m.content ≠ [] →
        assistantText msgs = pyStrip (collectText m.content)) := by
  refine ⟨search_success_exists h0 h1 h2 h3 h4 hagent h5 h6 hrc heff hok hml, ?_, ?_, ?_⟩
  · intro m hm
    obtain ⟨hrole, l1, l2, heq, hl2⟩ := lastAssistant_decomp hm
    exact ⟨by rw [heq]; simp, hrole, l1, l2, heq, hl2⟩
  · intro hs m hm
    exact lastAssistant_maximal hs hm
  · intro m hm hne
    simp [assistantText, hm, hne]

/-- C3 (witness): the amended statement at the healthy stub whose listing is
oldest-first and ends with the Paris assistant message. -/
theorem c3_extraction_witness :
    ((∃ agent tid st2 tr, search "capital of France?" envFull cfgOk stWithAgent =
        ⟨.returned (successPayload "capital of France?" agent tid runCompleted
           (assistantText [msgUser, msgParis])), st2, tr⟩) ∧
     (∀ m, lastAssistant [msgUser, msgParis] = some m →
        m ∈ [msgUser, msgParis] ∧ m.role = "assistant" ∧
        ∃ l1 l2, [msgUser, msgParis] = l1 ++ m :: l2 ∧ ∀ x ∈ l2, x.role ≠ "assistant") ∧
     (List.Pairwise (fun a b => a.createdAt ≤ b.createdAt) [msgUser, msgParis] →
        ∀ m, lastAssistant [msgUser, msgParis] = some m →
          ∀ x ∈ [msgUser, msgParis], x.role = "assistant" → x.createdAt ≤ m.createdAt) ∧
     (∀ m, lastAssistant [msgUser, msgParis] = some m → m.content ≠ [] →
        assistantText [msgUser, msgParis] = pyStrip (collectText m.content))) ∧
    assistantText [msgUser, msgParis] = "Paris is the capital of France." :=
  ⟨c3_extraction "capital of France?" envFull cfgOk stWithAgent { id := "bing-conn-1" }
      runInProgress runCompleted [msgUser, msgParis]
      (by decide) rfl rfl rfl rfl (Or.inl ⟨agentA, by decide⟩) rfl rfl
      (fun _ _ => rfl) (fun _ => rfl) (by decide) (fun _ => rfl),
   by decide⟩

/-! ### C7 -/

/-- C7: when the listing has no assistant-role message, or the selected (most
recent in list order) assistant message carries no nonempty text value, the
handler still returns the success payload, with `assistant_response` null, and
no exception escapes. -/
theorem c7_null_answer (query : String) (env : Env) (cfg : PlatformCfg)
    (st : PlatformState) (conn : Connection) (run run2 : Run) (msgs : List ThreadMessage)
    (h0 : missingVars env = [])
    (h1 : cfg.credentialFails = none) (h2 : cfg.clientInitFails = none)
    (h3 : cfg.connectionsGet (env.BING_RESOURCE_NAME.getD "") = .ok conn)
    (h4 : cfg.listAgentsFails = none)
    (hagent : (∃ agent, st.agents.find? (fun a => a.name == env.AGENT_NAME) = some agent) ∨
       (st.agents.find? (fun a => a.name == env.AGENT_NAME) = none ∧
        cfg.createAgentFails = none))
    (h5 : cfg.threadsCreateFails = none) (h6 : cfg.messagesCreateFails = none)
    (hrc : ∀ t aid, cfg.runsCreate t aid = .ok run)
    (heff : ∀ t, effectiveRun cfg t run = run2)
    (hok : run2.status ≠ "failed")
    (hml : ∀ t, cfg.messagesList t = .ok msgs)
    (hcond : lastAssistant msgs = none ∨
       ∃ m, lastAssistant msgs = some m ∧ collectText m.content = "") :
    assistantText msgs = "" ∧
    (∀ e, (search query env cfg st).outcome ≠ .raised e) ∧
    ∃ agent tid st2 tr,
      search query env cfg st =
        ⟨.returned (successPayload query agent tid run2 (assistantText msgs)), st2, tr⟩ ∧
      ("assistant_response", JVal.null) ∈
        successPayload query agent tid run2 (assistantText msgs) := by
  have htext : assistantText msgs = "" := by
    rcases hcond with h | ⟨m, hm, hcoll⟩
    · simp [assistantText, h, pyStrip]
    · by_cases hc : m.content = [] <;> simp [assistantText, hm, hc, hcoll, pyStrip]
  refine ⟨htext, fun e => search_not_raised h0 e, ?_⟩
  obtain ⟨agent, tid, st2, tr, hs⟩ :=
    search_success_exists h0 h1 h2 h3 h4 hagent h5 h6 hrc heff hok hml
  exact ⟨agent, tid, st2, tr, hs, by simp [successPayload, htext]⟩

/-- C7 (witness): with a thread containing only the user message, the answer
field is null and the handler still returns the success payload. -/
theorem c7_null_answer_witness :
    assistantText [msgUser] = "" ∧
    (∀ e, (search "capital of France?" envFull cfgNoAssistant stWithAgent).outcome ≠
       .raised e) ∧
    ∃ agent tid st2 tr,
      search "capital of France?" envFull cfgNoAssistant stWithAgent =
        ⟨.returned (successPayload "capital of France?" agent tid runCompleted
           (assistantText [msgUser])), st2, tr⟩ ∧
      ("assistant_response", JVal.null) ∈
        successPayload "capital of France?" agent tid runCompleted (assistantText [msgUser]) :=
  c7_null_answer "capital of France?" envFull cfgNoAssistant stWithAgent
    { id := "bing-conn-1" } runInProgress runCompleted [msgUser]
    (by decide) rfl rfl rfl rfl (Or.inl ⟨agentA, by decide⟩) rfl rfl
    (fun _ _ => rfl) (fun _ => rfl) (by decide) (fun _ => rfl) (Or.inl (by decide))

/-! ### C8 -/

/-- C8: when the single post-wait run refresh raises, the handler continues
with the pre-wait run snapshot: the effective run is the run object returned at
creation, the `"failed"` check is made against its (stale) status, and the
returned `run_status` is that stale status. -/
theorem c8_stale_run (query : String) (env : Env) (cfg : PlatformCfg)
    (st : PlatformState) (conn : Connection) (run : Run) (e : String)
    (h0 : missingVars env = [])
    (h1 : cfg.credentialFails = none) (h2 : cfg.clientInitFails = none)
    (h3 : cfg.connectionsGet (env.BING_RESOURCE_NAME.getD "") = .ok conn)
    (h4 : cfg.listAgentsFails = none)
    (hagent : (∃ agent, st.agents.find? (fun a => a.name == env.AGENT_NAME) = some agent) ∨
       (st.agents.find? (fun a => a.name == env.AGENT_NAME) = none ∧
        cfg.createAgentFails = none))
    (h5 : cfg.threadsCreateFails = none) (h6 : cfg.messagesCreateFails = none)
    (hrc : ∀ t aid, cfg.runsCreate t aid = .ok run)
    (hrg : ∀ t rid, cfg.runsGet t rid = .error e) :
    (∀ t, effectiveRun cfg t run = run) ∧
    (run.status = "failed" →
       ∃ st2 tr, search query env cfg st =
         ⟨.returned (failedPayload query run), st2, tr⟩) ∧
    (run.status ≠ "failed" → ∀ msgs, (∀ t, cfg.messagesList t = .ok msgs) →
       ∃ agent tid st2 tr,
         search query env cfg st =
           ⟨.returned (successPayload query agent tid run (assistantText msgs)), st2, tr⟩ ∧
         ("run_status", .str run.status) ∈
           successPayload query agent tid run (assistantText msgs)) := by
  have heff : ∀ t, effectiveRun cfg t run = run := by
    intro t; simp [effectiveRun, hrg]
  refine ⟨heff, ?_, ?_⟩
  · intro hfail
    rcases hagent with ⟨agent, hfind⟩ | ⟨hfind, h7⟩
    · have hbody := searchBody_reuse query h1 h2 h3 h4 hfind
      rw [afterAgent_failed h5 h6 (hrc _ _) (heff _) hfail] at hbody
      exact ⟨_, _, search_ok_shape h0 hbody⟩
    · have hbody := searchBody_create query h1 h2 h3 h4 hfind h7
      rw [afterAgent_failed h5 h6 (hrc _ _) (heff _) hfail] at hbody
      exact ⟨_, _, search_ok_shape h0 hbody⟩
  · intro hok msgs hml
    obtain ⟨agent, tid, st2, tr, hs⟩ :=
      search_success_exists h0 h1 h2 h3 h4 hagent h5 h6 hrc heff hok hml
    exact ⟨agent, tid, st2, tr, hs, by simp [successPayload]⟩

/-- C8 (witness): with a stub whose refresh raises `refresh boom`, the stale
`in_progress` run is used and reported as `run_status`. -/
theorem c8_stale_run_witness :
    (∀ t, effectiveRun cfgStaleRun t runInProgress = runInProgress) ∧
    (runInProgress.status = "failed" →
       ∃ st2 tr, search "capital of France?" envFull cfgStaleRun stWithAgent =
         ⟨.returned (failedPayload "capital of France?" runInProgress), st2, tr⟩) ∧
    (runInProgress.status ≠ "failed" →
       ∀ msgs, (∀ t, cfgStaleRun.messagesList t = .ok msgs) →
       ∃ agent tid st2 tr,
         search "capital of France?" envFull cfgStaleRun stWithAgent =
           ⟨.returned (successPayload "capital of France?" agent tid runInProgress
              (assistantText msgs)), st2, tr⟩ ∧
         ("run_status", .str runInProgress.status) ∈
           successPayload "capital of France?" agent tid runInProgress (assistantText msgs)) :=
  c8_stale_run "capital of France?" envFull cfgStaleRun stWithAgent
    { id := "bing-conn-1" } runInProgress "refresh boom"
    (by decide) rfl rfl rfl rfl (Or.inl ⟨agentA, by decide⟩) rfl rfl
    (fun _ _ => rfl) (fun _ _ => rfl)

/-! ### C9 -/

/-- C9: two sequential requests with the same query against a platform with a
pre-existing agent of the configured name each create a fresh conversation
thread — the two new thread ids differ — and leave the agents unchanged, with
no agent-creation call in either trace (the handler has no agent update or
delete operation at all). -/
theorem c9_fresh_threads (query : String) (env : Env) (cfg : PlatformCfg)
    (st : PlatformState) (conn : Connection) (agent : Agent)
    (h0 : missingVars env = [])
    (h1 : cfg.credentialFails = none) (h2 : cfg.clientInitFails = none)
    (h3 : cfg.connectionsGet (env.BING_RESOURCE_NAME.getD "") = .ok conn)
    (h4 : cfg.listAgentsFails = none)
    (h5 : cfg.threadsCreateFails = none)
    (hfind : st.agents.find? (fun a => a.name == env.AGENT_NAME) = some agent) :
    (search query env cfg st).state.agents = st.agents ∧
    (search query env cfg (search query env cfg st).state).state.agents = st.agents ∧
    (search query env cfg st).state.threads = st.threads ++ [st.nextId] ∧
    (search query env cfg (search query env cfg st).state).state.threads =
      st.threads ++ [st.nextId, st.nextId + 1] ∧
    st.nextId ≠ st.nextId + 1 ∧
    PlatformCall.createThread ∈ (search query env cfg st).trace ∧
    PlatformCall.createThread ∈ (search query env cfg (search query env cfg st).state).trace ∧
    (∀ m n i tl hd tp,
       PlatformCall.createAgent m n i tl hd tp ∉ (search query env cfg st).trace ∧
       PlatformCall.createAgent m n i tl hd tp ∉
         (search query env cfg (search query env cfg st).state).trace) := by
  have hparts1 := search_reuse_parts query h0 h1 h2 h3 h4 hfind
  have hfresh1 :=
    afterAgent_fresh_thread query cfg agent st h5
  have hstate1 : (search query env cfg st).state =
      { agents := st.agents, nextId := st.nextId + 1, threads := st.threads ++ [st.nextId] } := by
    rw [hparts1.2, hfresh1.1]
  have hfind2 : (search query env cfg st).state.agents.find?
      (fun a => a.name == env.AGENT_NAME) = some agent := by
    rw [hstate1]; exact hfind
  have hparts2 := search_reuse_parts query h0 h1 h2 h3 h4 hfind2
  have hfresh2 := afterAgent_fresh_thread query cfg agent (search query env cfg st).state h5
  have hstate2 : (search query env cfg (search query env cfg st).state).state =
      { agents := st.agents, nextId := st.nextId + 2,
        threads := st.threads ++ [st.nextId, st.nextId + 1] } := by
    rw [hparts2.2, hfresh2.1, hstate1]
    simp
  refine ⟨by rw [hstate1], by rw [hstate2], by rw [hstate1], by rw [hstate2], by simp, ?_, ?_, ?_⟩
  · rw [hparts1.1]
    exact List.mem_append_right _ hfresh1.2
  · rw [hparts2.1]
    exact List.mem_append_right _ hfresh2.2
  · intro m n i tl hd tp
    constructor
    · have hext := (afterAgent_trace_facts query cfg agent st).2.2.2.2.2.1 m n i tl hd tp
      rw [hparts1.1]
      simp [hext]
    · have hext := (afterAgent_trace_facts query cfg agent
        (search query env cfg st).state).2.2.2.2.2.1 m n i tl hd tp
      rw [hparts2.1]
      simp [hext]

/-- C9 (witness): two sequential healthy requests against the platform holding
the pre-existing agent produce threads 10 and 11 and never create an agent. -/
theorem c9_fresh_threads_witness :
    (search "capital of France?" envFull cfgOk stWithAgent).state.agents =
      stWithAgent.agents ∧
    (search "capital of France?" envFull cfgOk
        (search "capital of France?" envFull cfgOk stWithAgent).state).state.agents =
      stWithAgent.agents ∧
    (search "capital of France?" envFull cfgOk stWithAgent).state.threads =
      stWithAgent.threads ++ [stWithAgent.nextId] ∧
    (search "capital of France?" envFull cfgOk
        (search "capital of France?" envFull cfgOk stWithAgent).state).state.threads =
      stWithAgent.threads ++ [stWithAgent.nextId, stWithAgent.nextId + 1] ∧
    stWithAgent.nextId ≠ stWithAgent.nextId + 1 ∧
    PlatformCall.createThread ∈ (search "capital of France?" envFull cfgOk stWithAgent).trace ∧
    PlatformCall.createThread ∈ (search "capital of France?" envFull cfgOk
        (search "capital of France?" envFull cfgOk stWithAgent).state).trace ∧
    (∀ m n i tl hd tp,
       PlatformCall.createAgent m n i tl hd tp ∉
         (search "capital of France?" envFull cfgOk stWithAgent).trace ∧
       PlatformCall.createAgent m n i tl hd tp ∉
         (search "capital of France?" envFull cfgOk
           (search "capital of France?" envFull cfgOk stWithAgent).state).trace) :=
  c9_fresh_threads "capital of France?" envFull cfgOk stWithAgent
    { id := "bing-conn-1" } agentA (by decide) rfl rfl rfl rfl rfl (by decide)

/-! ### C10 -/

/-- C10 (counterexample): a matching-by-name reuse CAN occur with `AGENT_NAME`
unset — a listed agent whose own name is null matches the null configured
name, so no creation call is made and the null-named agent's id is returned. -/
theorem c10_counterexample :
    envNoAgentName.AGENT_NAME = none ∧
    agentNull.name = none ∧ agentNull ∈ stWithNull.agents ∧
    stWithNull.agents.find? (fun a => a.name == envNoAgentName.AGENT_NAME) = some agentNull ∧
    (search "q3" envNoAgentName cfgOk stWithNull).trace =
      [.credential, .initClient "https://proj.example", .connectionsGet "bing-search",
       .listAgents, .createThread, .createMessage 20 "user" "q3", .createRun 20 7,
       .sleep 7, .getRun 20 100, .listMessages 20] ∧
    (∀ m n i tl hd tp,
       PlatformCall.createAgent m n i tl hd tp ∉
         (search "q3" envNoAgentName cfgOk stWithNull).trace) ∧
    ("agent_id", JVal.nat agentNull.id) ∈
      (successPayload "q3" agentNull 20 runCompleted
        (assistantText [msgUser, msgParis])) ∧
    (search "q3" envNoAgentName cfgOk stWithNull).outcome =
      .returned (successPayload "q3" agentNull 20 runCompleted
        (assistantText [msgUser, msgParis])) := by
  refine ⟨rfl, rfl, by decide, by decide, rfl, ?_, by decide, rfl⟩
  intro m n i tl hd tp
  rw [show (search "q3" envNoAgentName cfgOk stWithNull).trace =
      [.credential, .initClient "https://proj.example", .connectionsGet "bing-search",
       .listAgents, .createThread, .createMessage 20 "user" "q3", .createRun 20 7,
       .sleep 7, .getRun 20 100, .listMessages 20] from rfl]
  simp

/-- C10 (amended): only the two required variables are validated — with
`AGENT_NAME` or `AGENT_INSTRUCTIONS` unset (and the required values present) no
configuration error is produced, the handler proceeds to the remote calls, and
the unset settings are passed through as null values to the agent-creation
call.  The reuse lookup compares listed agent names against the (possibly
null) configured name: with `AGENT_NAME` unset, no agent with a non-null name
ever matches, but a listed null-named agent does match, so reuse occurs
exactly when the listing holds a null-named agent. -/
theorem c10_validation_scope (query : String) (env : Env) (cfg : PlatformCfg)
    (st : PlatformState)
    (hreq : envTruthy env.PROJECT_CONNECTION_STRING = true ∧
            envTruthy env.BING_RESOURCE_NAME = true) :
    missingVars env = [] ∧
    (∀ m, (search query env cfg st).outcome ≠ .raised m) ∧
    PlatformCall.credential ∈ (search query env cfg st).trace ∧
    (∀ conn, cfg.credentialFails = none → cfg.clientInitFails = none →
       cfg.connectionsGet (env.BING_RESOURCE_NAME.getD "") = .ok conn →
       cfg.listAgentsFails = none →
       st.agents.find? (fun a => a.name == env.AGENT_NAME) = none →
       PlatformCall.createAgent (env.MODEL_DEPLOYMENT_NAME.getD "gpt-4.1") env.AGENT_NAME
           env.AGENT_INSTRUCTIONS (bingGroundingDefinitions conn.id)
           [("x-ms-enable-preview", "true")] 0 ∈ (search query env cfg st).trace) ∧
    (env.AGENT_NAME = none → (∀ ag ∈ st.agents, ag.name ≠ none) →
       st.agents.find? (fun a => a.name == env.AGENT_NAME) = none) ∧
    (env.AGENT_NAME = none → ∀ ag ∈ st.agents, ag.name = none →
       ∃ ag2, st.agents.find? (fun a => a.name == env.AGENT_NAME) = some ag2 ∧
         ag2.name = none) := by
  have h0 : missingVars env = [] := by simp [missingVars, hreq.1, hreq.2]
  refine ⟨h0, fun m => search_not_raised h0 m, ?_, ?_, ?_, ?_⟩
  · rcases hb : searchBody query env cfg st with ⟨res, st2, tr⟩
    have hcred := (searchBody_trace_facts query env cfg st).2
    rw [hb] at hcred
    cases res with
    | ok r => rw [search_ok_shape h0 hb]; exact hcred
    | error e => rw [search_error_shape h0 hb]; exact hcred
  · intro conn h1 h2 h3 h4 hfind
    rcases h6 : cfg.createAgentFails with _ | e
    · rw [(search_create_parts query h0 h1 h2 h3 h4 hfind h6).1]
      simp
    · rw [search_error_shape h0 (searchBody_create_fail query h1 h2 h3 h4 hfind h6)]
      simp
  · intro hname hall
    rw [List.find?_eq_none]
    intro ag hag
    have := hall ag hag
    simp [hname]
    exact this
  · intro hname ag hag hnull
    have hsome : (st.agents.find? (fun a => a.name == env.AGENT_NAME)).isSome := by
      rw [List.find?_isSome]
      exact ⟨ag, hag, by simp [hname, hnull]⟩
    obtain ⟨ag2, hag2⟩ := Option.isSome_iff_exists.1 hsome
    refine ⟨ag2, hag2, ?_⟩
    have := List.find?_some hag2
    simpa [hname] using this

/-- C10 (witness): the amended statement at the concrete environment with both
agent settings unset, over the platform holding the null-named agent. -/
theorem c10_validation_scope_witness :
    missingVars envNoAgentName = [] ∧
    (∀ m, (search "q4" envNoAgentName cfgOk stWithNull).outcome ≠ .raised m) ∧
    PlatformCall.credential ∈ (search "q4" envNoAgentName cfgOk stWithNull).trace ∧
    (∀ conn, cfgOk.credentialFails = none → cfgOk.clientInitFails = none →
       cfgOk.connectionsGet (envNoAgentName.BING_RESOURCE_NAME.getD "") = .ok conn →
       cfgOk.listAgentsFails = none →
       stWithNull.agents.find? (fun a => a.name == envNoAgentName.AGENT_NAME) = none →
       PlatformCall.createAgent (envNoAgentName.MODEL_DEPLOYMENT_NAME.getD "gpt-4.1")
           envNoAgentName.AGENT_NAME envNoAgentName.AGENT_INSTRUCTIONS
           (bingGroundingDefinitions conn.id) [("x-ms-enable-preview", "true")] 0 ∈
         (search "q4" envNoAgentName cfgOk stWithNull).trace) ∧
    (envNoAgentName.AGENT_NAME = none → (∀ ag ∈ stWithNull.agents, ag.name ≠ none) →
       stWithNull.agents.find? (fun a => a.name == envNoAgentName.AGENT_NAME) = none) ∧
    (envNoAgentName.AGENT_NAME = none → ∀ ag ∈ stWithNull.agents, ag.name = none →
       ∃ ag2, stWithNull.agents.find? (fun a => a.name == envNoAgentName.AGENT_NAME) =
           some ag2 ∧ ag2.name = none) :=
  c10_validation_scope "q4" envNoAgentName cfgOk stWithNull ⟨by decide, by decide⟩
